import Mathlib

/-!
Verification development for the CloudWatch RUM metrics-destination adapter
(`internal/service/rum/metrics_destination.go`).

The adapter translates a schema-typed resource record into remote calls:
`resourceMetricsDestinationPut` (create/update), `resourceMetricsDestinationRead`,
`resourceMetricsDestinationDelete`, and the name-keyed finder
`FindMetricsDestinationByName` that drains the paginated list API.

The remote service and SDK plumbing are shallowly embedded: an AWS error is a
value carrying its error code; the connection is a record of response functions,
one per remote API; the paginated list call either fails as a whole or yields a
finite sequence of (possibly null) result pages, which the pager feeds to the
Go callback together with a last-page flag.
-/

namespace RUM

/-- An AWS service error, identified by its error code string (this is all the
adapter ever inspects, via `tfawserr.ErrCodeEquals`). -/
structure AWSError where
  code : String
deriving DecidableEq, Repr

/-- `cloudwatchrum.ErrCodeResourceNotFoundException`. -/
def errCodeResourceNotFoundException : String := "ResourceNotFoundException"

/-- `tfawserr.ErrCodeEquals err code`: false on a nil error, otherwise compares
the error code. -/
def errCodeEquals : Option AWSError → String → Bool
  | none, _ => false
  | some e, code => e.code == code

/-- `cloudwatchrum.MetricDestinationSummary`: the record returned by the list
API. Its fields are string pointers in the SDK, hence `Option String`. -/
structure MetricDestinationSummary where
  destination : Option String
  destinationArn : Option String
  iamRoleArn : Option String
deriving DecidableEq, Repr

/-- `cloudwatchrum.ListRumMetricsDestinationsOutput`: one result page, holding a
slice of possibly-nil summary pointers. -/
structure ListRumMetricsDestinationsOutput where
  destinations : List (Option MetricDestinationSummary)
deriving DecidableEq, Repr

/-- A page as handed to the pagination callback: the page pointer itself may be
nil. -/
abbrev Page := Option ListRumMetricsDestinationsOutput

/-- `cloudwatchrum.ListRumMetricsDestinationsInput`. -/
structure ListInput where
  appMonitorName : String
deriving DecidableEq, Repr

/-- `cloudwatchrum.PutRumMetricsDestinationInput`. A `none` ARN field means the
field is omitted from the request (the Go code only sets it under `GetOk`). -/
structure PutInput where
  appMonitorName : String
  destination : String
  destinationArn : Option String
  iamRoleArn : Option String
deriving DecidableEq, Repr

/-- `cloudwatchrum.DeleteRumMetricsDestinationInput`. -/
structure DeleteInput where
  appMonitorName : String
  destination : String
  destinationArn : Option String
deriving DecidableEq, Repr

/-- The remote service connection (`*cloudwatchrum.CloudWatchRUM`), embedded as
the responses it gives to each remote call. The paginated list call either
fails as a whole with an AWS error or yields the finite sequence of pages the
pager will walk. -/
structure RemoteConn where
  putRumMetricsDestination : PutInput → Option AWSError
  listRumMetricsDestinationsPages : ListInput → Except AWSError (List Page)
  deleteRumMetricsDestination : DeleteInput → Option AWSError

/-- The schema-typed resource record (`*schema.ResourceData`) as the adapter
uses it: the identifier, the new-resource flag, the two required string
attributes and the two optional ARN attributes. An optional attribute holds
`none` when unset. -/
structure ResourceData where
  id : String
  isNew : Bool
  app_monitor_name : String
  destination : String
  destination_arn : Option String
  iam_role_arn : Option String
deriving DecidableEq, Repr

/-- `d.GetOk` semantics for an optional string attribute: the value with
ok = true exactly when the attribute is set to a non-zero (non-empty) value. -/
def getOk : Option String → Option String
  | none => none
  | some s => if s == "" then none else some s

/-- The errors `FindMetricsDestinationByName` can return:
`retry.NotFoundError` (carrying the last error and last request),
`tfresource.EmptyResultError` (carrying the request),
`tfresource.TooManyResultsError` (carrying the count and the request),
or the raw remote error passed through. -/
inductive FindError where
  | notFound (lastError : AWSError) (lastRequest : ListInput)
  | emptyResult (lastRequest : ListInput)
  | tooManyResults (count : Nat) (lastRequest : ListInput)
  | remote (e : AWSError)
deriving DecidableEq, Repr

/-- Modelled from the spec: `tfresource.NotFound` (from `internal/tfresource`,
which is not part of this fragment) classifies a finder error as the not-found
condition. Per the spec's error taxonomy, the remote resource-not-found list
error and the empty-result case are both `NotFoundError` ("both are terminal
nothing-here outcomes"), while `AmbiguousResultError` is fatal and surfaced,
and any other remote failure is a `RemoteCallError`. -/
def tfresourceNotFound : FindError → Bool
  | .notFound _ _ => true
  | .emptyResult _ => true
  | .tooManyResults _ _ => false
  | .remote _ => false

/-- The underlying cause recorded in a diagnostic. -/
inductive ErrCause where
  | aws (e : AWSError)
  | find (e : FindError)
deriving DecidableEq, Repr

/-- One error diagnostic: the static operation phrase of the format string, the
interpolated identifier, and the wrapped cause. -/
structure Diagnostic where
  operation : String
  identifier : String
  cause : ErrCause
deriving DecidableEq, Repr

/-- Modelled from the spec: `sdkdiag.AppendErrorf` (from `internal/errs/sdkdiag`,
not part of this fragment) appends an error diagnostic carrying the operation
context, the identifier and the underlying cause ("surfaced verbatim with
operation context"). -/
def appendErrorf (diags : List Diagnostic) (op id : String) (cause : ErrCause) :
    List Diagnostic :=
  diags ++ [{ operation := op, identifier := id, cause := cause }]

/-- The pagination callback passed to `ListRumMetricsDestinationsPagesWithContext`:
a nil page contributes nothing; otherwise every non-nil entry of the page is
appended to the accumulator; in both cases the callback returns `!lastPage`. -/
def findCallback (output : List MetricDestinationSummary) (page : Page)
    (lastPage : Bool) : List MetricDestinationSummary × Bool :=
  match page with
  | none => (output, !lastPage)
  | some pg => (output ++ pg.destinations.filterMap (fun v => v), !lastPage)

/-- The SDK pager: feeds each page to the callback together with a flag telling
whether it is the last page, and keeps going while the callback returns true. -/
def pagesLoop
    (fn : List MetricDestinationSummary → Page → Bool →
      List MetricDestinationSummary × Bool) :
    List MetricDestinationSummary → List Page → List MetricDestinationSummary
  | s, [] => s
  | s, page :: rest =>
    let r := fn s page rest.isEmpty
    if r.2 then pagesLoop fn r.1 rest else r.1

/-- The accumulator `output` after the pager has run over `pages` starting from
the empty slice. -/
def drainPages (pages : List Page) : List MetricDestinationSummary :=
  pagesLoop findCallback [] pages

/-- The non-nil entries of one page, in order (a nil page has none). -/
def pageEntries : Page → List MetricDestinationSummary
  | none => []
  | some pg => pg.destinations.filterMap (fun v => v)

/-- Concatenation of the non-nil entries of every page, in page order and
within-page order. -/
def pageEntriesConcat : List Page → List MetricDestinationSummary
  | [] => []
  | p :: rest => pageEntries p ++ pageEntriesConcat rest

/-- `FindMetricsDestinationByName`: drains the paginated list call, maps a
remote resource-not-found error code to `retry.NotFoundError`, passes any other
remote error through, and applies the zero/one/many policy to the accumulated
entries. -/
def FindMetricsDestinationByName (conn : RemoteConn) (name : String) :
    Except FindError MetricDestinationSummary :=
  let input : ListInput := { appMonitorName := name }
  match conn.listRumMetricsDestinationsPages input with
  | .error err =>
    if err.code == errCodeResourceNotFoundException then
      .error (.notFound err input)
    else
      .error (.remote err)
  | .ok pages =>
    match drainPages pages with
    | [] => .error (.emptyResult input)
    | [v] => .ok v
    | vs => .error (.tooManyResults vs.length input)

/-- The put request built by `resourceMetricsDestinationPut`: required fields
always, optional ARN fields only under `GetOk`. -/
def buildPutInput (d : ResourceData) : PutInput :=
  { appMonitorName := d.app_monitor_name
    destination := d.destination
    destinationArn := getOk d.destination_arn
    iamRoleArn := getOk d.iam_role_arn }

/-- The delete request built by `resourceMetricsDestinationDelete`: identifier
and destination always, the destination ARN only under `GetOk`. -/
def buildDeleteInput (d : ResourceData) : DeleteInput :=
  { appMonitorName := d.id
    destination := d.destination
    destinationArn := getOk d.destination_arn }

/-- `resourceMetricsDestinationRead`: looks the record up by the identifier; on
a not-found condition for a non-new resource it clears the identifier and
succeeds; any other error is surfaced; on success it repopulates the attributes
from the found record (`d.Set` with a nil string pointer stores the zero value,
which `GetOk` reports as unset, hence `getOk` on the ARN pointers and `""` for
a nil destination pointer). -/
def resourceMetricsDestinationRead (conn : RemoteConn) (d : ResourceData) :
    ResourceData × List Diagnostic :=
  match FindMetricsDestinationByName conn d.id with
  | .error err =>
    if !d.isNew && tfresourceNotFound err then
      ({ d with id := "" }, [])
    else
      (d, appendErrorf [] "reading CloudWatch RUM Metrics Destination" d.id
        (.find err))
  | .ok dest =>
    ({ d with
        app_monitor_name := d.id
        destination := dest.destination.getD ""
        destination_arn := getOk dest.destinationArn
        iam_role_arn := getOk dest.iamRoleArn }, [])

/-- `resourceMetricsDestinationPut`: issues one remote put call with the built
request; on failure returns the wrapped error with the resource unchanged; on
success assigns the name as the identifier when the resource is new, then
performs the read-back and returns its result. -/
def resourceMetricsDestinationPut (conn : RemoteConn) (d : ResourceData) :
    ResourceData × List Diagnostic :=
  let name := d.app_monitor_name
  let input := buildPutInput d
  match conn.putRumMetricsDestination input with
  | some err =>
    (d, appendErrorf [] "putting CloudWatch RUM Metrics Destination" name
      (.aws err))
  | none =>
    let d1 := if d.isNew then { d with id := name } else d
    resourceMetricsDestinationRead conn d1

/-- `resourceMetricsDestinationDelete`: issues one remote delete call; a remote
resource-not-found error code is treated as success; any other error is
surfaced; the resource record itself is never modified. -/
def resourceMetricsDestinationDelete (conn : RemoteConn) (d : ResourceData) :
    ResourceData × List Diagnostic :=
  let input := buildDeleteInput d
  let err := conn.deleteRumMetricsDestination input
  if errCodeEquals err errCodeResourceNotFoundException then
    (d, [])
  else
    match err with
    | some e =>
      (d, appendErrorf [] "deleting CloudWatch RUM Metrics Destination" d.id
        (.aws e))
    | none => (d, [])

/-! Concrete sample data used to instantiate the theorems below. -/

/-- A sample summary record. -/
def sampleSummary1 : MetricDestinationSummary :=
  { destination := some "CloudWatch", destinationArn := none, iamRoleArn := none }

/-- A second sample summary record. -/
def sampleSummary2 : MetricDestinationSummary :=
  { destination := some "Evidently"
    destinationArn := some "arn:aws:evidently:us-east-1:123456789012:experiment/e"
    iamRoleArn := some "arn:aws:iam::123456789012:role/r" }

/-- A sample resource record for an existing (non-new) resource. -/
def sampleData : ResourceData :=
  { id := "app1", isNew := false, app_monitor_name := "app1"
    destination := "CloudWatch", destination_arn := none, iam_role_arn := none }

/-- The sample resource record during initial creation. -/
def sampleDataNew : ResourceData :=
  { sampleData with isNew := true }

/-- A sample resource record with one optional ARN attribute set. -/
def sampleDataArn : ResourceData :=
  { id := "app1", isNew := false, app_monitor_name := "app1"
    destination := "CloudWatch"
    destination_arn := some "arn:aws:logs:us-east-1:123456789012:log-group:g"
    iam_role_arn := none }

/-- A connection whose list call yields no pages and whose other calls
succeed. -/
def connEmptyPages : RemoteConn :=
  { putRumMetricsDestination := fun _ => none
    listRumMetricsDestinationsPages := fun _ => .ok []
    deleteRumMetricsDestination := fun _ => none }

/-- A connection whose list call yields one page holding two non-nil entries
around a nil one. -/
def connTwoEntries : RemoteConn :=
  { putRumMetricsDestination := fun _ => none
    listRumMetricsDestinationsPages := fun _ =>
      .ok [some { destinations := [some sampleSummary1, none, some sampleSummary2] }]
    deleteRumMetricsDestination := fun _ => none }

/-- A connection whose list call yields a nil page between two real pages. -/
def connWithNilPage : RemoteConn :=
  { putRumMetricsDestination := fun _ => none
    listRumMetricsDestinationsPages := fun _ =>
      .ok [some { destinations := [some sampleSummary1] }, none,
        some { destinations := [some sampleSummary2] }]
    deleteRumMetricsDestination := fun _ => none }

/-- The same pages as `connWithNilPage` with the nil page removed. -/
def connWithoutNilPage : RemoteConn :=
  { putRumMetricsDestination := fun _ => none
    listRumMetricsDestinationsPages := fun _ =>
      .ok [some { destinations := [some sampleSummary1] },
        some { destinations := [some sampleSummary2] }]
    deleteRumMetricsDestination := fun _ => none }

/-- A connection whose list call fails with the resource-not-found error
code. -/
def connListNotFound : RemoteConn :=
  { putRumMetricsDestination := fun _ => none
    listRumMetricsDestinationsPages := fun _ =>
      .error { code := errCodeResourceNotFoundException }
    deleteRumMetricsDestination := fun _ => none }

/-- A connection whose list call fails with an access-denied error. -/
def connListDenied : RemoteConn :=
  { putRumMetricsDestination := fun _ => none
    listRumMetricsDestinationsPages := fun _ => .error { code := "AccessDeniedException" }
    deleteRumMetricsDestination := fun _ => none }

/-- A connection whose put call fails with an access-denied error. -/
def connPutDenied : RemoteConn :=
  { putRumMetricsDestination := fun _ => some { code := "AccessDeniedException" }
    listRumMetricsDestinationsPages := fun _ => .ok []
    deleteRumMetricsDestination := fun _ => none }

/-- A connection whose put call succeeds and whose list call yields exactly the
first sample record. -/
def connPutOk : RemoteConn :=
  { putRumMetricsDestination := fun _ => none
    listRumMetricsDestinationsPages := fun _ =>
      .ok [some { destinations := [some sampleSummary1] }]
    deleteRumMetricsDestination := fun _ => none }

/-- A connection whose delete call fails with the resource-not-found error
code. -/
def connDeleteNotFound : RemoteConn :=
  { putRumMetricsDestination := fun _ => none
    listRumMetricsDestinationsPages := fun _ => .ok []
    deleteRumMetricsDestination := fun _ =>
      some { code := errCodeResourceNotFoundException } }

/-- A connection whose delete call fails with an access-denied error. -/
def connDeleteDenied : RemoteConn :=
  { putRumMetricsDestination := fun _ => none
    listRumMetricsDestinationsPages := fun _ => .ok []
    deleteRumMetricsDestination := fun _ => some { code := "AccessDeniedException" } }

/-! Helper lemmas about the pager. -/

/-- Running the pager with the finder callback appends to the accumulator the
non-nil entries of every page, in order: the callback returns `!lastPage`, so
the loop never stops before the last page. -/
theorem pagesLoop_findCallback_eq (pages : List Page)
    (acc : List MetricDestinationSummary) :
    pagesLoop findCallback acc pages = acc ++ pageEntriesConcat pages := by
  induction pages generalizing acc with
  | nil => simp [pagesLoop, pageEntriesConcat]
  | cons p rest ih =>
    cases rest with
    | nil =>
      cases p <;>
        simp [pagesLoop, findCallback, pageEntries, pageEntriesConcat]
    | cons q rest2 =>
      cases p with
      | none =>
        have h1 : pagesLoop findCallback acc (none :: q :: rest2) =
            pagesLoop findCallback acc (q :: rest2) := rfl
        rw [h1, ih]
        simp [pageEntriesConcat, pageEntries]
      | some pg =>
        have h1 : pagesLoop findCallback acc (some pg :: q :: rest2) =
            pagesLoop findCallback
              (acc ++ pg.destinations.filterMap (fun v => v)) (q :: rest2) := rfl
        rw [h1, ih]
        simp [pageEntriesConcat, pageEntries]

/-- The drained accumulator is the ordered concatenation of the non-nil entries
of every page. -/
theorem drainPages_eq (pages : List Page) :
    drainPages pages = pageEntriesConcat pages := by
  simpa [drainPages] using pagesLoop_findCallback_eq pages []

/-- Page-entry concatenation distributes over appending page lists. -/
theorem pageEntriesConcat_append (xs ys : List Page) :
    pageEntriesConcat (xs ++ ys) =
      pageEntriesConcat xs ++ pageEntriesConcat ys := by
  induction xs with
  | nil => simp [pageEntriesConcat]
  | cons p rest ih => simp [pageEntriesConcat, ih]

/-- C1: for every name, if the list call drains its pages without a remote
error and accumulates zero non-nil entries, the finder fails with the
empty-result error — classified as the not-found condition — and returns no
record. -/
theorem find_zero_entries_not_found (conn : RemoteConn) (name : String)
    (pages : List Page)
    (hl : conn.listRumMetricsDestinationsPages { appMonitorName := name } =
      .ok pages)
    (hz : drainPages pages = []) :
    FindMetricsDestinationByName conn name =
      .error (.emptyResult { appMonitorName := name }) ∧
    tfresourceNotFound (.emptyResult { appMonitorName := name }) = true := by
  refine ⟨?_, rfl⟩
  simp [FindMetricsDestinationByName, hl, hz]

/-- Witness for C1: the finder over zero pages fails with the empty-result
error. -/
theorem find_zero_entries_not_found_witness :
    FindMetricsDestinationByName connEmptyPages "app1" =
      .error (.emptyResult { appMonitorName := "app1" }) ∧
    tfresourceNotFound (.emptyResult { appMonitorName := "app1" }) = true :=
  find_zero_entries_not_found connEmptyPages "app1" [] rfl rfl

/-- C2: for every name, if draining the pages accumulates two or more non-nil
entries, the finder fails with the too-many-results error carrying the exact
count of accumulated entries; it never returns one of the entries. -/
theorem find_many_entries_ambiguous (conn : RemoteConn) (name : String)
    (pages : List Page)
    (hl : conn.listRumMetricsDestinationsPages { appMonitorName := name } =
      .ok pages)
    (h2 : 2 ≤ (drainPages pages).length) :
    FindMetricsDestinationByName conn name =
      .error (.tooManyResults (drainPages pages).length
        { appMonitorName := name }) := by
  cases hq : drainPages pages with
  | nil => rw [hq] at h2; simp at h2
  | cons a t =>
    cases t with
    | nil => rw [hq] at h2; simp at h2
    | cons b rest =>
      simp [FindMetricsDestinationByName, hl, hq]

/-- Witness for C2: a page holding two non-nil entries makes the finder fail
with the too-many-results error carrying count 2. -/
theorem find_many_entries_ambiguous_witness :
    FindMetricsDestinationByName connTwoEntries "app1" =
      .error (.tooManyResults 2 { appMonitorName := "app1" }) :=
  find_many_entries_ambiguous connTwoEntries "app1"
    [some { destinations := [some sampleSummary1, none, some sampleSummary2] }]
    rfl (by decide)

/-- C3: when the list call itself fails with the resource-not-found error code,
the finder fails with the wrapped not-found error; this outcome is classified
exactly like the zero-entries outcome, and the one in-repository caller — the
read operation — ends in the same resource state with a diagnostic present in
one case exactly when it is present in the other. -/
theorem find_remote_not_found_like_empty (conn1 conn2 : RemoteConn)
    (name : String) (e : AWSError) (pages : List Page) (d : ResourceData)
    (h1 : conn1.listRumMetricsDestinationsPages { appMonitorName := name } =
      .error e)
    (hc : e.code = errCodeResourceNotFoundException)
    (h2 : conn2.listRumMetricsDestinationsPages { appMonitorName := name } =
      .ok pages)
    (hz : drainPages pages = [])
    (hid : d.id = name) :
    FindMetricsDestinationByName conn1 name =
      .error (.notFound e { appMonitorName := name }) ∧
    FindMetricsDestinationByName conn2 name =
      .error (.emptyResult { appMonitorName := name }) ∧
    tfresourceNotFound (.notFound e { appMonitorName := name }) =
      tfresourceNotFound (.emptyResult { appMonitorName := name }) ∧
    (resourceMetricsDestinationRead conn1 d).1 =
      (resourceMetricsDestinationRead conn2 d).1 ∧
    (resourceMetricsDestinationRead conn1 d).2.isEmpty =
      (resourceMetricsDestinationRead conn2 d).2.isEmpty := by
  have hf1 : FindMetricsDestinationByName conn1 name =
      .error (.notFound e { appMonitorName := name }) := by
    simp [FindMetricsDestinationByName, h1, hc]
  have hf2 : FindMetricsDestinationByName conn2 name =
      .error (.emptyResult { appMonitorName := name }) := by
    simp [FindMetricsDestinationByName, h2, hz]
  refine ⟨hf1, hf2, rfl, ?_, ?_⟩ <;>
    cases hn : d.isNew <;>
      simp [resourceMetricsDestinationRead, hid, hf1, hf2, hn,
        tfresourceNotFound, appendErrorf]

/-- Witness for C3: a remote resource-not-found list error and an empty page
list produce identically classified outcomes and the same read behavior. -/
theorem find_remote_not_found_like_empty_witness :
    FindMetricsDestinationByName connListNotFound "app1" =
      .error (.notFound { code := errCodeResourceNotFoundException }
        { appMonitorName := "app1" }) ∧
    FindMetricsDestinationByName connEmptyPages "app1" =
      .error (.emptyResult { appMonitorName := "app1" }) ∧
    tfresourceNotFound (.notFound { code := errCodeResourceNotFoundException }
      { appMonitorName := "app1" }) =
      tfresourceNotFound (.emptyResult { appMonitorName := "app1" }) ∧
    (resourceMetricsDestinationRead connListNotFound sampleData).1 =
      (resourceMetricsDestinationRead connEmptyPages sampleData).1 ∧
    (resourceMetricsDestinationRead connListNotFound sampleData).2.isEmpty =
      (resourceMetricsDestinationRead connEmptyPages sampleData).2.isEmpty :=
  find_remote_not_found_like_empty connListNotFound connEmptyPages "app1"
    { code := errCodeResourceNotFoundException } [] sampleData
    rfl rfl rfl rfl rfl

/-- C4: for every name and page sequence, the finder's accumulator equals the
concatenation, in page order and within-page order, of exactly the non-nil
entries of each page, and the finder's decision is a function of that full
concatenation (all pages are consumed before deciding). -/
theorem find_drains_all_pages (conn : RemoteConn) (name : String)
    (pages : List Page)
    (hl : conn.listRumMetricsDestinationsPages { appMonitorName := name } =
      .ok pages) :
    drainPages pages = pageEntriesConcat pages ∧
    FindMetricsDestinationByName conn name =
      (match pageEntriesConcat pages with
       | [] => .error (.emptyResult { appMonitorName := name })
       | [v] => .ok v
       | vs => .error (.tooManyResults vs.length { appMonitorName := name })) := by
  refine ⟨drainPages_eq pages, ?_⟩
  simp [FindMetricsDestinationByName, hl, drainPages_eq]

/-- Witness for C4: over two one-entry pages the accumulator is the ordered
two-entry concatenation and the finder decides on it. -/
theorem find_drains_all_pages_witness :
    drainPages [some { destinations := [some sampleSummary1] },
        some { destinations := [some sampleSummary2] }] =
      pageEntriesConcat [some { destinations := [some sampleSummary1] },
        some { destinations := [some sampleSummary2] }] ∧
    FindMetricsDestinationByName connWithoutNilPage "app1" =
      (match pageEntriesConcat [some { destinations := [some sampleSummary1] },
          some { destinations := [some sampleSummary2] }] with
       | [] => .error (.emptyResult { appMonitorName := "app1" })
       | [v] => .ok v
       | vs => .error (.tooManyResults vs.length { appMonitorName := "app1" })) :=
  find_drains_all_pages connWithoutNilPage "app1"
    [some { destinations := [some sampleSummary1] },
      some { destinations := [some sampleSummary2] }] rfl

/-- C9: a nil result page is handled totally and skipped: it contributes no
entries to the accumulator and does not terminate the page scan early — the
finder behaves exactly as if the nil page were not there. -/
theorem find_skips_nil_page (conn1 conn2 : RemoteConn) (name : String)
    (p1 p2 : List Page)
    (h1 : conn1.listRumMetricsDestinationsPages { appMonitorName := name } =
      .ok (p1 ++ none :: p2))
    (h2 : conn2.listRumMetricsDestinationsPages { appMonitorName := name } =
      .ok (p1 ++ p2)) :
    drainPages (p1 ++ none :: p2) = drainPages (p1 ++ p2) ∧
    FindMetricsDestinationByName conn1 name =
      FindMetricsDestinationByName conn2 name := by
  have hd : drainPages (p1 ++ none :: p2) = drainPages (p1 ++ p2) := by
    simp [drainPages_eq, pageEntriesConcat_append, pageEntriesConcat,
      pageEntries]
  refine ⟨hd, ?_⟩
  simp [FindMetricsDestinationByName, h1, h2, hd]

/-- Witness for C9: inserting a nil page between two real pages changes
neither the accumulator nor the finder's result. -/
theorem find_skips_nil_page_witness :
    drainPages ([some { destinations := [some sampleSummary1] }] ++ none ::
        [some { destinations := [some sampleSummary2] }]) =
      drainPages ([some { destinations := [some sampleSummary1] }] ++
        [some { destinations := [some sampleSummary2] }]) ∧
    FindMetricsDestinationByName connWithNilPage "app1" =
      FindMetricsDestinationByName connWithoutNilPage "app1" :=
  find_skips_nil_page connWithNilPage connWithoutNilPage "app1"
    [some { destinations := [some sampleSummary1] }]
    [some { destinations := [some sampleSummary2] }] rfl rfl

/-- C5: the put operation issues the built request; on remote failure it
returns the wrapped error carrying the operation name and the identifier and
leaves the resource record — in particular the identifier — unchanged; on
success it assigns the name as the identifier exactly when the resource is new
and then performs the read-back. -/
theorem put_assigns_id_only_on_success (conn : RemoteConn) (d : ResourceData) :
    (∀ e, conn.putRumMetricsDestination (buildPutInput d) = some e →
      resourceMetricsDestinationPut conn d =
        (d, appendErrorf [] "putting CloudWatch RUM Metrics Destination"
          d.app_monitor_name (.aws e))) ∧
    (conn.putRumMetricsDestination (buildPutInput d) = none →
      resourceMetricsDestinationPut conn d =
        resourceMetricsDestinationRead conn
          (if d.isNew then { d with id := d.app_monitor_name } else d)) := by
  constructor
  · intro e he
    simp [resourceMetricsDestinationPut, he]
  · intro he
    simp [resourceMetricsDestinationPut, he]

/-- Witness for C5: a failing put leaves the sample record untouched and
reports the error; a successful put on a new resource proceeds to the
read-back of the record with the identifier assigned. -/
theorem put_assigns_id_only_on_success_witness :
    resourceMetricsDestinationPut connPutDenied sampleData =
      (sampleData,
        appendErrorf [] "putting CloudWatch RUM Metrics Destination"
          sampleData.app_monitor_name (.aws { code := "AccessDeniedException" })) ∧
    resourceMetricsDestinationPut connPutOk sampleDataNew =
      resourceMetricsDestinationRead connPutOk
        (if sampleDataNew.isNew then
          { sampleDataNew with id := sampleDataNew.app_monitor_name }
        else sampleDataNew) :=
  ⟨(put_assigns_id_only_on_success connPutDenied sampleData).1
      { code := "AccessDeniedException" } rfl,
   (put_assigns_id_only_on_success connPutOk sampleDataNew).2 rfl⟩

/-- C6: when the finder reports an error classified as not-found and the
resource is not new, the read operation succeeds with no diagnostic and clears
the identifier; when the resource is new, the same condition is surfaced as an
error; any error not classified as not-found is surfaced as an error
regardless. -/
theorem read_absent_semantics (conn : RemoteConn) (d : ResourceData)
    (e : FindError)
    (hf : FindMetricsDestinationByName conn d.id = .error e) :
    (tfresourceNotFound e = true → d.isNew = false →
      resourceMetricsDestinationRead conn d = ({ d with id := "" }, [])) ∧
    (tfresourceNotFound e = true → d.isNew = true →
      resourceMetricsDestinationRead conn d =
        (d, appendErrorf [] "reading CloudWatch RUM Metrics Destination" d.id
          (.find e))) ∧
    (tfresourceNotFound e = false →
      resourceMetricsDestinationRead conn d =
        (d, appendErrorf [] "reading CloudWatch RUM Metrics Destination" d.id
          (.find e))) := by
  refine ⟨?_, ?_, ?_⟩
  · intro hnf hnew
    simp [resourceMetricsDestinationRead, hf, hnf, hnew]
  · intro hnf hnew
    simp [resourceMetricsDestinationRead, hf, hnf, hnew]
  · intro hnf
    simp [resourceMetricsDestinationRead, hf, hnf]

/-- Witness for C6: an empty remote result clears the identifier of an
existing resource but is an error for a new one, and an access-denied list
failure is an error for an existing resource. -/
theorem read_absent_semantics_witness :
    resourceMetricsDestinationRead connEmptyPages sampleData =
      ({ sampleData with id := "" }, []) ∧
    resourceMetricsDestinationRead connEmptyPages sampleDataNew =
      (sampleDataNew,
        appendErrorf [] "reading CloudWatch RUM Metrics Destination"
          sampleDataNew.id (.find (.emptyResult { appMonitorName := "app1" }))) ∧
    resourceMetricsDestinationRead connListDenied sampleData =
      (sampleData,
        appendErrorf [] "reading CloudWatch RUM Metrics Destination"
          sampleData.id (.find (.remote { code := "AccessDeniedException" }))) :=
  ⟨(read_absent_semantics connEmptyPages sampleData
      (.emptyResult { appMonitorName := "app1" }) rfl).1 rfl rfl,
   ((read_absent_semantics connEmptyPages sampleDataNew
      (.emptyResult { appMonitorName := "app1" }) rfl).2).1 rfl rfl,
   ((read_absent_semantics connListDenied sampleData
      (.remote { code := "AccessDeniedException" }) rfl).2).2 rfl⟩

/-- C7: when the remote delete call fails with the resource-not-found error
code, the delete operation succeeds with no diagnostic; any other remote
delete failure is surfaced as an error carrying the operation context and the
identifier. -/
theorem delete_not_found_is_success (conn : RemoteConn) (d : ResourceData)
    (e : AWSError)
    (hd : conn.deleteRumMetricsDestination (buildDeleteInput d) = some e) :
    (e.code = errCodeResourceNotFoundException →
      resourceMetricsDestinationDelete conn d = (d, [])) ∧
    (e.code ≠ errCodeResourceNotFoundException →
      resourceMetricsDestinationDelete conn d =
        (d, appendErrorf [] "deleting CloudWatch RUM Metrics Destination" d.id
          (.aws e))) := by
  constructor
  · intro hc
    simp [resourceMetricsDestinationDelete, hd, errCodeEquals, hc]
  · intro hc
    simp [resourceMetricsDestinationDelete, hd, errCodeEquals, hc]

/-- Witness for C7: a resource-not-found delete failure yields success with no
diagnostic, while an access-denied delete failure yields an error diagnostic. -/
theorem delete_not_found_is_success_witness :
    resourceMetricsDestinationDelete connDeleteNotFound sampleData =
      (sampleData, []) ∧
    resourceMetricsDestinationDelete connDeleteDenied sampleData =
      (sampleData,
        appendErrorf [] "deleting CloudWatch RUM Metrics Destination"
          sampleData.id (.aws { code := "AccessDeniedException" })) :=
  ⟨(delete_not_found_is_success connDeleteNotFound sampleData
      { code := errCodeResourceNotFoundException } rfl).1 rfl,
   (delete_not_found_is_success connDeleteDenied sampleData
      { code := "AccessDeniedException" } rfl).2 (by decide)⟩

/-- C8: the put request always carries the monitor name and the destination;
it carries an optional ARN field exactly when `GetOk` reports that attribute
as present, copying its value; when the attribute is absent the field is
omitted (`none`), and the request never carries an empty string in an optional
field. -/
theorem put_request_fields (d : ResourceData) :
    (buildPutInput d).appMonitorName = d.app_monitor_name ∧
    (buildPutInput d).destination = d.destination ∧
    ((buildPutInput d).destinationArn.isSome ↔
      (getOk d.destination_arn).isSome) ∧
    (∀ s, getOk d.destination_arn = some s →
      (buildPutInput d).destinationArn = some s) ∧
    (getOk d.destination_arn = none → (buildPutInput d).destinationArn = none) ∧
    (buildPutInput d).destinationArn ≠ some "" ∧
    ((buildPutInput d).iamRoleArn.isSome ↔ (getOk d.iam_role_arn).isSome) ∧
    (∀ s, getOk d.iam_role_arn = some s →
      (buildPutInput d).iamRoleArn = some s) ∧
    (getOk d.iam_role_arn = none → (buildPutInput d).iamRoleArn = none) ∧
    (buildPutInput d).iamRoleArn ≠ some "" := by
  have hne : ∀ v : Option String, getOk v ≠ some "" := by
    intro v
    cases v with
    | none => simp [getOk]
    | some s =>
      by_cases hs : s == ""
      · simp [getOk, hs]
      · simp [getOk, hs]
        simpa using hs
  exact ⟨rfl, rfl, Iff.rfl, fun _ h => h, fun h => h, hne d.destination_arn,
    Iff.rfl, fun _ h => h, fun h => h, hne d.iam_role_arn⟩

/-- Witness for C8: a set destination ARN attribute is copied into the request
and an unset role ARN attribute is omitted from it. -/
theorem put_request_fields_witness :
    (buildPutInput sampleDataArn).destinationArn =
      some "arn:aws:logs:us-east-1:123456789012:log-group:g" ∧
    (buildPutInput sampleDataArn).iamRoleArn = none := by
  obtain ⟨h1, h2, h3, h4, h5, h6, h7, h8, h9, h10⟩ :=
    put_request_fields sampleDataArn
  exact ⟨h4 _ rfl, h9 rfl⟩

/-- C10: the delete operation never mutates the locally held resource record:
whatever the remote delete call returns, the record — identifier and all
stored attributes — comes back unchanged. -/
theorem delete_preserves_local_state (conn : RemoteConn) (d : ResourceData) :
    (resourceMetricsDestinationDelete conn d).1 = d := by
  simp only [resourceMetricsDestinationDelete]
  split
  · rfl
  · split <;> rfl

end RUM
